import Mathlib

/-!
Shallow embedding of
src/redisinsight/api/src/modules/database-discovery/utils/pre-setup.discovery.util.ts
(the pre-setup database discovery utilities of RedisInsight).

Modelling conventions:
- A JS value that may be `undefined` (a missing object property, or a missing
  environment variable) is an `Option`; `none` stands for `undefined`.
- For the fields of the partial input whose destructuring default is `null`
  (db, provider, verifyServerCert, ssh, sshOptions, tlsServername,
  nameFromProvider, username, password) the output value `null` is also
  rendered as `none`: JS `undefined` and `null` both map to output `null`,
  so no claim distinguishes them.
- JS template interpolation of `undefined` renders the string "undefined"
  (`jsShow`).
- Machine-generated identifiers (`uuidv4`) are passed in explicitly (`gen`).
- External effects (environment snapshot, file system reads, base64 decoding,
  the class-validator call, JSON parsing) are fields of a context record
  `Ctx`; fallible operations return `Except String`, modelling a thrown
  exception by `Except.error`.
- The object spread `...database` preserves any property outside the known
  key set; those unknown properties are modelled by the `extra` field.
-/

namespace PreSetup

/-- One certificate record (CA or client certificate), as handled by
`populateDefaultValues`: an object whose properties may each be absent. -/
structure CertificateRecord where
  id : Option String := none
  name : Option String := none
  certificate : Option String := none
  key : Option String := none
  isPreSetup : Option Bool := none
  deriving DecidableEq

/-- `Partial<Database>`: every property may be absent (`undefined`). -/
structure PartialDatabase where
  id : Option String := none
  host : Option String := none
  port : Option Int := none
  db : Option Int := none
  provider : Option String := none
  modules : Option (List String) := none
  verifyServerCert : Option Bool := none
  ssh : Option String := none
  sshOptions : Option String := none
  tls : Option Bool := none
  tlsServername : Option String := none
  caCert : Option CertificateRecord := none
  clientCert : Option CertificateRecord := none
  nameFromProvider : Option String := none
  username : Option String := none
  password : Option String := none
  compressor : Option String := none
  name : Option String := none
  connectionType : Option String := none
  isPreSetup : Option Bool := none
  extra : List (String × String) := []
  deriving DecidableEq

/-- The normalized `Database` returned by `populateDefaultValues`.
Fields whose default is `null` keep type `Option _` (`none` = `null`);
fields that always receive a value after normalization are plain.
The compressor enum values are runtime strings in JS (the TS `as Compressor`
cast performs no conversion), so `compressor` is a `String`. -/
structure Database where
  id : String
  host : Option String
  port : Int
  db : Option Int
  provider : Option String
  modules : List String
  verifyServerCert : Option Bool
  ssh : Option String
  sshOptions : Option String
  tls : Bool
  tlsServername : Option String
  caCert : Option CertificateRecord
  clientCert : Option CertificateRecord
  nameFromProvider : Option String
  username : Option String
  password : Option String
  compressor : String
  name : String
  connectionType : String
  isPreSetup : Bool
  extra : List (String × String)
  deriving DecidableEq

/-- JS template interpolation of a possibly-undefined string value:
undefined renders as the string "undefined". -/
def jsShow (o : Option String) : String := o.getD "undefined"

/-- Line 38-95: `populateDefaultValues`. Destructures the partial input with
the defaults of lines 42-59 and returns the spread of the input overwritten by
the explicit fields of lines 62-94. Note line 77 and line 83: the certificate
stamp uses `database.id` (the raw input property), not the destructured `id`.
`gen` is the value `uuidv4()` would produce for this call. -/
def populateDefaultValues (gen : String) (d : PartialDatabase) : Database :=
  let id := d.id.getD gen
  let port := d.port.getD 6379
  let name := d.name.getD (jsShow d.host ++ ":" ++ toString port)
  let stamp := fun (c : CertificateRecord) =>
    { c with
      id := d.id
      name := some (jsShow d.id ++ "_" ++ name)
      isPreSetup := some true }
  { id := id
    host := d.host
    port := port
    db := d.db
    provider := d.provider
    modules := d.modules.getD []
    verifyServerCert := d.verifyServerCert
    ssh := d.ssh
    sshOptions := d.sshOptions
    tls := d.tls.getD false
    tlsServername := d.tlsServername
    caCert := d.caCert.map stamp
    clientCert := d.clientCert.map stamp
    nameFromProvider := d.nameFromProvider
    username := d.username
    password := d.password
    compressor := d.compressor.getD "NONE"
    name := name
    connectionType := "NOT_CONNECTED"
    isPreSetup := true
    extra := d.extra }

/-- Feeding a normalized `Database` object back to `populateDefaultValues`:
every property of the output object is present, so each field becomes `some`
(fields of `Option` type carry their `null`/value content unchanged). -/
def Database.toPartial (x : Database) : PartialDatabase :=
  { id := some x.id
    host := x.host
    port := some x.port
    db := x.db
    provider := x.provider
    modules := some x.modules
    verifyServerCert := x.verifyServerCert
    ssh := x.ssh
    sshOptions := x.sshOptions
    tls := some x.tls
    tlsServername := x.tlsServername
    caCert := x.caCert
    clientCert := x.clientCert
    nameFromProvider := x.nameFromProvider
    username := x.username
    password := x.password
    compressor := some x.compressor
    name := some x.name
    connectionType := some x.connectionType
    isPreSetup := some x.isPreSetup
    extra := x.extra }

@[simp] theorem populate_id (g : String) (d : PartialDatabase) :
    (populateDefaultValues g d).id = d.id.getD g := rfl

@[simp] theorem populate_host (g : String) (d : PartialDatabase) :
    (populateDefaultValues g d).host = d.host := rfl

@[simp] theorem populate_port (g : String) (d : PartialDatabase) :
    (populateDefaultValues g d).port = d.port.getD 6379 := rfl

@[simp] theorem populate_db (g : String) (d : PartialDatabase) :
    (populateDefaultValues g d).db = d.db := rfl

@[simp] theorem populate_name (g : String) (d : PartialDatabase) :
    (populateDefaultValues g d).name
      = d.name.getD (jsShow d.host ++ ":" ++ toString (d.port.getD 6379)) := rfl

@[simp] theorem populate_compressor (g : String) (d : PartialDatabase) :
    (populateDefaultValues g d).compressor = d.compressor.getD "NONE" := rfl

@[simp] theorem populate_connectionType (g : String) (d : PartialDatabase) :
    (populateDefaultValues g d).connectionType = "NOT_CONNECTED" := rfl

@[simp] theorem populate_isPreSetup (g : String) (d : PartialDatabase) :
    (populateDefaultValues g d).isPreSetup = true := rfl

@[simp] theorem populate_extra (g : String) (d : PartialDatabase) :
    (populateDefaultValues g d).extra = d.extra := rfl

theorem populate_caCert (g : String) (d : PartialDatabase) :
    (populateDefaultValues g d).caCert
      = d.caCert.map (fun c =>
          { c with
            id := d.id
            name := some (jsShow d.id ++ "_" ++ (populateDefaultValues g d).name)
            isPreSetup := some true }) := rfl

theorem populate_clientCert (g : String) (d : PartialDatabase) :
    (populateDefaultValues g d).clientCert
      = d.clientCert.map (fun c =>
          { c with
            id := d.id
            name := some (jsShow d.id ++ "_" ++ (populateDefaultValues g d).name)
            isPreSetup := some true }) := rfl

/-- Character-list test used to model `String.prototype.startsWith` and the
anchored regex of line 128. -/
def strStarts (s p : String) : Bool := p.data.isPrefixOf s.data

/-- Dropping the first `n` characters of a string (model of stripping a
matched anchored pattern). -/
def strDropChars (s : String) (n : Nat) : String := String.mk (s.data.drop n)

/-- Value of the accumulated decimal digits. -/
def digitsVal (l : List Char) : Nat :=
  l.foldl (fun a c => a * 10 + (c.toNat - 48)) 0

/-- The longest leading run of decimal digits, as a number; `none` when there
is no leading digit (JS `NaN`). -/
def jsParseIntCore (l : List Char) : Option Int :=
  let ds := l.takeWhile Char.isDigit
  if ds.isEmpty then none else some (Int.ofNat (digitsVal ds))

/-- JS `parseInt(s, 10)`: skip leading whitespace, read an optional sign and
then the longest run of decimal digits, ignoring any trailing characters;
`none` models `NaN`. -/
def jsParseInt (s : String) : Option Int :=
  let l := s.data.dropWhile (fun c => c == ' ' || c == '\t' || c == '\n' || c == '\r')
  match l with
  | [] => none
  | c :: rest =>
    if c = '-' then (jsParseIntCore rest).map Int.neg
    else if c = '+' then jsParseIntCore rest
    else jsParseIntCore (c :: rest)

/-- `parseInt(x, 10) || dflt`: the default is taken when the variable is
absent (`parseInt(undefined)` is `NaN`), when parsing fails, and also when
the parsed number is `0`, since `0` is falsy under `||`. -/
def jsParseIntOrDefault (o : Option String) (dflt : Int) : Int :=
  match o.bind jsParseInt with
  | some n => if n = 0 then dflt else n
  | none => dflt

/-- JS truthiness of a string-or-absent value: truthy iff present and
non-empty. -/
def strTruthy (o : Option String) : Bool := o.getD "" != ""

/-- The ambient world of the module: the environment snapshot
(`process.env`), the file system (`readFile`, `pathExists` of fs-extra),
base64 decoding (`Buffer.from(x, base64).toString()`), JSON parsing of the
pre-setup file, the class-validator call (`validateOrReject` under the
security group; `Except.error` models a thrown rejection), and the stream of
identifiers `uuidv4()` would generate (`genId i` is the id generated for the
i-th entry of a batch). -/
structure Ctx where
  env : List (String × String)
  readFile : String → Except String String
  decodeBase64 : String → Except String String
  pathExists : String → Bool
  parseJson : String → Except String (List PartialDatabase)
  validate : Database → Except String Unit
  genId : Nat → String

/-- `process.env[k]`. -/
def envGet (e : Ctx) (k : String) : Option String :=
  (e.env.find? (fun kv => kv.1 == k)).map Prod.snd

/-- Lines 18-32: `scanProcessEnv` returns the keys that start with
`RI_REDIS_HOST` and hold a truthy (non-empty) value, in snapshot order. -/
def scanProcessEnv (e : Ctx) : List String :=
  (e.env.filter (fun kv =>
    strStarts kv.1 "RI_REDIS_HOST" && strTruthy (envGet e kv.1))).map Prod.fst

/-- Lines 97-122: `getCertificateData`. Prefers the inline base64 value over
the file path; the whole body is wrapped in try/catch, so a decode or read
failure returns `null` (it does not fall through to the next source). -/
def getCertificateData (e : Ctx) (pfx i : String) : Option String :=
  let b := (envGet e (pfx ++ "_BASE64" ++ i)).getD ""
  if b ≠ "" then
    match e.decodeBase64 b with
    | .ok v => some v
    | .error _ => none
  else
    let p := (envGet e (pfx ++ "_PATH" ++ i)).getD ""
    if p ≠ "" then
      match e.readFile p with
      | .ok v => some v
      | .error _ => none
    else
      none

/-- Line 128: `hostEnv.replace(regex-anchored RI_REDIS_HOST, empty)`. -/
def rawSuffix (hostEnv : String) : String :=
  if strStarts hostEnv "RI_REDIS_HOST" then
    strDropChars hostEnv ("RI_REDIS_HOST".length)
  else hostEnv

/-- Lines 131-162 of `prepareDatabaseFromEnvs`: the partial definition built
from the snapshot, including the certificate attachments. The conditional
mutations of lines 146-150 and 156-162 are rendered as conditional fields. -/
def buildDatabaseToAdd (e : Ctx) (hostEnv : String) : PartialDatabase :=
  let sfx := rawSuffix hostEnv
  let tlsCA := getCertificateData e "RI_REDIS_TLS_CA" sfx
  let tlsCertificate := getCertificateData e "RI_REDIS_TLS_CERT" sfx
  let tlsKey := getCertificateData e "RI_REDIS_TLS_KEY" sfx
  { id := some (if sfx = "" then "0" else sfx)
    host := envGet e hostEnv
    port := some (jsParseIntOrDefault (envGet e ("RI_REDIS_PORT" ++ sfx)) 6379)
    db := some (jsParseIntOrDefault (envGet e ("RI_REDIS_DB" ++ sfx)) 0)
    name := envGet e ("RI_REDIS_ALIAS" ++ sfx)
    username := envGet e ("RI_REDIS_USERNAME" ++ sfx)
    password := envGet e ("RI_REDIS_PASSWORD" ++ sfx)
    tls := some (decide (envGet e ("RI_REDIS_TLS" ++ sfx) = some "true"))
    compressor := envGet e ("RI_REDIS_COMPRESSOR" ++ sfx)
    caCert := if strTruthy tlsCA then some { certificate := tlsCA } else none
    clientCert :=
      if strTruthy tlsCertificate && strTruthy tlsKey then
        some { certificate := tlsCertificate, key := tlsKey }
      else none
    verifyServerCert :=
      if strTruthy tlsCertificate && strTruthy tlsKey then some true else none }

/-- Lines 124-180: `prepareDatabaseFromEnvs`. Normalizes the built partial
definition and validates it; a validation rejection (or any other thrown
error) is caught and yields `null`. `gen` is the `uuidv4()` value available
to `populateDefaultValues` for this call. -/
def prepareDatabaseFromEnvs (e : Ctx) (gen hostEnv : String) : Option Database :=
  let prepared := populateDefaultValues gen (buildDatabaseToAdd e hostEnv)
  match e.validate prepared with
  | .ok _ => some prepared
  | .error _ => none

/-- Lines 182-197: `discoverEnvDatabasesToAdd`. Maps every discovered host
key through `prepareDatabaseFromEnvs` (concurrently joined by Promise.all)
and keeps the truthy results. -/
def discoverEnvDatabasesToAdd (e : Ctx) : List Database :=
  ((scanProcessEnv e).enum.map
    (fun p => prepareDatabaseFromEnvs e (e.genId p.1) p.2)).filterMap (fun v => v)

/-- Lines 199-216: `prepareDatabaseFromFile`. Normalizes and validates one
parsed element; any thrown error is caught and yields `null`. -/
def prepareDatabaseFromFile (gen : String) (e : Ctx) (d : PartialDatabase) :
    Option Database :=
  let x := populateDefaultValues gen d
  match e.validate x with
  | .ok _ => some x
  | .error _ => none

/-- Lines 218-235: `discoverFileDatabasesToAdd`. When the path does not
exist the function falls through to the empty collection; a read or parse
failure is caught and also yields the empty collection; otherwise every
parsed element is prepared independently and the truthy results are kept. -/
def discoverFileDatabasesToAdd (e : Ctx) (path : String) : List Database :=
  if e.pathExists path then
    match e.readFile path with
    | .error _ => []
    | .ok content =>
      match e.parseJson content with
      | .error _ => []
      | .ok fileData =>
        ((fileData.enum.map
          (fun p => prepareDatabaseFromFile (e.genId p.1) e p.2)).filterMap (fun v => v))
  else []

@[simp] theorem build_port (e : Ctx) (h : String) :
    (buildDatabaseToAdd e h).port
      = some (jsParseIntOrDefault (envGet e ("RI_REDIS_PORT" ++ rawSuffix h)) 6379) := rfl

@[simp] theorem build_db (e : Ctx) (h : String) :
    (buildDatabaseToAdd e h).db
      = some (jsParseIntOrDefault (envGet e ("RI_REDIS_DB" ++ rawSuffix h)) 0) := rfl

@[simp] theorem build_tls (e : Ctx) (h : String) :
    (buildDatabaseToAdd e h).tls
      = some (decide (envGet e ("RI_REDIS_TLS" ++ rawSuffix h) = some "true")) := rfl

@[simp] theorem build_compressor (e : Ctx) (h : String) :
    (buildDatabaseToAdd e h).compressor
      = envGet e ("RI_REDIS_COMPRESSOR" ++ rawSuffix h) := rfl

theorem build_clientCert (e : Ctx) (h : String) :
    (buildDatabaseToAdd e h).clientCert
      = (if strTruthy (getCertificateData e "RI_REDIS_TLS_CERT" (rawSuffix h))
            && strTruthy (getCertificateData e "RI_REDIS_TLS_KEY" (rawSuffix h)) then
          some { certificate := getCertificateData e "RI_REDIS_TLS_CERT" (rawSuffix h)
                 key := getCertificateData e "RI_REDIS_TLS_KEY" (rawSuffix h) }
        else none) := rfl

theorem build_verifyServerCert (e : Ctx) (h : String) :
    (buildDatabaseToAdd e h).verifyServerCert
      = (if strTruthy (getCertificateData e "RI_REDIS_TLS_CERT" (rawSuffix h))
            && strTruthy (getCertificateData e "RI_REDIS_TLS_KEY" (rawSuffix h)) then
          some true
        else none) := rfl

@[simp] theorem populate_verifyServerCert (g : String) (d : PartialDatabase) :
    (populateDefaultValues g d).verifyServerCert = d.verifyServerCert := rfl

@[simp] theorem populate_tls (g : String) (d : PartialDatabase) :
    (populateDefaultValues g d).tls = d.tls.getD false := rfl

@[simp] theorem populate_modules (g : String) (d : PartialDatabase) :
    (populateDefaultValues g d).modules = d.modules.getD [] := rfl

/-- Modelled from the spec: the members of the compressor enum of
database.entity.ts (that file is not under src). The spec names NONE as the
default member; the remaining members are the standard set, and the claims
only need that NONE is a member and that an arbitrary junk string is not. -/
def recognizedCompressors : List String :=
  ["NONE", "GZIP", "ZSTD", "LZ4", "SNAPPY", "Brotli", "PHP_GZCOMPRESS"]

/-- A partial definition carrying only a host and a CA certificate (no id,
no name): the shape an entry of the pre-setup file may take. -/
def dCert : PartialDatabase :=
  { host := some "h", caCert := some { certificate := some "CA" } }

/-- A partial definition carrying only a host. -/
def dHostOnly : PartialDatabase := { host := some "h" }

/-- A context with an empty environment where every external operation
fails: the neutral fixture the concrete test contexts are built from. -/
def ctxBase : Ctx :=
  { env := []
    readFile := fun _ => .error "io"
    decodeBase64 := fun _ => .error "decode"
    pathExists := fun _ => false
    parseJson := fun _ => .error "parse"
    validate := fun _ => .ok ()
    genId := fun _ => "g" }

/-- A snapshot declaring one host with an unrecognized compressor value. -/
def ctxC3 : Ctx :=
  { ctxBase with env := [("RI_REDIS_HOST", "h"), ("RI_REDIS_COMPRESSOR", "FOO")] }

/-- A snapshot declaring one host with the port variable holding "0". -/
def ctxC6 : Ctx :=
  { ctxBase with env := [("RI_REDIS_HOST", "h"), ("RI_REDIS_PORT", "0")] }

/-- A snapshot declaring one host with a parsable nonzero port and tls on. -/
def ctxC6w : Ctx :=
  { ctxBase with
    env := [("RI_REDIS_HOST", "h"), ("RI_REDIS_PORT", "6380"), ("RI_REDIS_TLS", "true")] }

/-- A context where both the inline base64 source and the file source are
set for the same certificate id, and both resolutions would succeed. -/
def ctxC7 : Ctx :=
  { ctxBase with
    env := [("CERT_BASE64X", "b64"), ("CERT_PATHX", "f")]
    decodeBase64 := fun s => .ok ("dec:" ++ s)
    readFile := fun _ => .ok "file" }

/-- A snapshot declaring one host with inline client certificate and key. -/
def ctxC8 : Ctx :=
  { ctxBase with
    env := [("RI_REDIS_HOST", "h"),
            ("RI_REDIS_TLS_CERT_BASE64", "C"),
            ("RI_REDIS_TLS_KEY_BASE64", "K")]
    decodeBase64 := fun s => .ok s }

/-- Claim C1, corrected. The claim states that a present caCert/clientCert is
stamped with id equal to the id of the normalized result (the generated id
when the input had none). In the code the stamp reads the raw input property
database.id, not the destructured id with its generated default, so the
stamped certificate carries the id of the INPUT: it equals the id of the
result only when the input supplied one, and is undefined (rendering the
name as "undefined_...") when the input had none. The stamped name is
"{inputId}_{resultName}" and isPreSetup is true. -/
theorem C1_cert_stamp (gen : String) (d : PartialDatabase) :
    (∀ c, d.caCert = some c →
      (populateDefaultValues gen d).caCert
        = some { c with
                 id := d.id
                 name := some (jsShow d.id ++ "_" ++ (populateDefaultValues gen d).name)
                 isPreSetup := some true })
    ∧ (∀ c, d.clientCert = some c →
      (populateDefaultValues gen d).clientCert
        = some { c with
                 id := d.id
                 name := some (jsShow d.id ++ "_" ++ (populateDefaultValues gen d).name)
                 isPreSetup := some true })
    ∧ (∀ i, d.id = some i → (populateDefaultValues gen d).id = i) := by
  refine ⟨?_, ?_, ?_⟩
  · intro c hc; rw [populate_caCert, hc]; rfl
  · intro c hc; rw [populate_clientCert, hc]; rfl
  · intro i hi; rw [populate_id, hi]; rfl

/-- Claim C1 witness: on a concrete input with a caCert and no id, the stamp
carries the absent input id and the name rendered with "undefined". -/
theorem C1_witness :
    dCert.caCert = some { certificate := some "CA" }
    ∧ (populateDefaultValues "g" dCert).caCert
        = some { id := none
                 name := some "undefined_h:6379"
                 certificate := some "CA"
                 key := none
                 isPreSetup := some true } :=
  ⟨rfl, (C1_cert_stamp "g" dCert).1 { certificate := some "CA" } rfl⟩

/-- Claim C1 counterexample: for the input with a caCert and no id, the
stamped certificate id differs from the id of the normalized result (it is
absent, while the result id is the generated one). -/
theorem C1_counterexample :
    dCert.id = none
    ∧ ((populateDefaultValues "g" dCert).caCert.bind (fun c => c.id))
        ≠ some (populateDefaultValues "g" dCert).id := by
  decide

/-- Claim C2, corrected. The claim states that the default table maps an
unset db to 0. In the code the destructuring default of db is null (line
46), so an unset db becomes null in the output, not 0; the other cited
defaults hold: port 6379 and compressor NONE for unset fields. -/
theorem C2_defaults (gen : String) (d : PartialDatabase) :
    (d.db = none → (populateDefaultValues gen d).db = none)
    ∧ (d.port = none → (populateDefaultValues gen d).port = 6379)
    ∧ (d.compressor = none → (populateDefaultValues gen d).compressor = "NONE") := by
  refine ⟨?_, ?_, ?_⟩ <;> intro h <;> simp [h]

/-- Claim C2 witness: on the host-only input every hypothesis holds and the
defaults evaluate as stated. -/
theorem C2_witness :
    dHostOnly.db = none ∧ dHostOnly.port = none ∧ dHostOnly.compressor = none
    ∧ (populateDefaultValues "g" dHostOnly).db = none
    ∧ (populateDefaultValues "g" dHostOnly).port = 6379
    ∧ (populateDefaultValues "g" dHostOnly).compressor = "NONE" :=
  ⟨rfl, rfl, rfl,
    (C2_defaults "g" dHostOnly).1 rfl,
    (C2_defaults "g" dHostOnly).2.1 rfl,
    (C2_defaults "g" dHostOnly).2.2 rfl⟩

/-- Claim C2 counterexample: the normalizer output for a host-only input has
db null, not 0. -/
theorem C2_counterexample :
    dHostOnly.db = none ∧ (populateDefaultValues "g" dHostOnly).db ≠ some 0 := by
  decide

/-- Claim C3, corrected. The claim states that the env pipeline yields
compressor NONE when the variable is absent OR unrecognized. The code (line
140) assigns the raw environment string through a compile-time-only cast and
the normalizer (line 59) only substitutes NONE for an absent value, so an
unrecognized value survives into the prepared definition unchanged; only the
absent case yields NONE. -/
theorem C3_compressor (e : Ctx) (gen hk : String) :
    (envGet e ("RI_REDIS_COMPRESSOR" ++ rawSuffix hk) = none →
      (populateDefaultValues gen (buildDatabaseToAdd e hk)).compressor = "NONE")
    ∧ (∀ s, envGet e ("RI_REDIS_COMPRESSOR" ++ rawSuffix hk) = some s →
      (populateDefaultValues gen (buildDatabaseToAdd e hk)).compressor = s) := by
  constructor
  · intro h0; simp [h0]
  · intro s hs; simp [hs]

/-- Claim C3 witness: with the compressor variable set the raw value is kept,
and with it absent the default NONE applies. -/
theorem C3_witness :
    envGet ctxC3 ("RI_REDIS_COMPRESSOR" ++ rawSuffix "RI_REDIS_HOST") = some "FOO"
    ∧ (populateDefaultValues "g" (buildDatabaseToAdd ctxC3 "RI_REDIS_HOST")).compressor = "FOO"
    ∧ envGet ctxC6 ("RI_REDIS_COMPRESSOR" ++ rawSuffix "RI_REDIS_HOST") = none
    ∧ (populateDefaultValues "g" (buildDatabaseToAdd ctxC6 "RI_REDIS_HOST")).compressor = "NONE" :=
  ⟨by decide,
    (C3_compressor ctxC3 "g" "RI_REDIS_HOST").2 "FOO" (by decide),
    by decide,
    (C3_compressor ctxC6 "g" "RI_REDIS_HOST").1 (by decide)⟩

/-- Claim C3 counterexample: with the compressor variable holding the
unrecognized value FOO, the definition produced by the env pipeline (under a
validator that accepts it) has compressor FOO, not NONE. -/
theorem C3_counterexample :
    envGet ctxC3 "RI_REDIS_COMPRESSOR" = some "FOO"
    ∧ "FOO" ∉ recognizedCompressors
    ∧ (prepareDatabaseFromEnvs ctxC3 "g" "RI_REDIS_HOST").map Database.compressor
        = some "FOO"
    ∧ (prepareDatabaseFromEnvs ctxC3 "g" "RI_REDIS_HOST").map Database.compressor
        ≠ some "NONE" := by
  decide

/-- Claim C4, confirmed. Both discovery entry points are total functions
into a plain (possibly empty) collection — in the model every per-entry
failure mode (a validator rejection, modelled as any Except.error of an
arbitrary validator) is caught inside the entry preparation, so no exception
crosses the discovery API. The env result is exactly the entry-wise
filter-map of the per-host preparation over the scanned keys, so one entry
failing (preparing to none) removes only that entry; the file pipeline
returns the empty collection when the path does not exist or reading or
parsing fails, and otherwise the entry-wise filter-map over the parsed
elements. -/
theorem C4_containment (e : Ctx) (path : String) :
    (discoverEnvDatabasesToAdd e
      = ((scanProcessEnv e).enum.map
          (fun p => prepareDatabaseFromEnvs e (e.genId p.1) p.2)).filterMap (fun v => v))
    ∧ (e.pathExists path = false → discoverFileDatabasesToAdd e path = [])
    ∧ (∀ err, e.pathExists path = true → e.readFile path = .error err →
        discoverFileDatabasesToAdd e path = [])
    ∧ (∀ content err, e.pathExists path = true → e.readFile path = .ok content →
        e.parseJson content = .error err → discoverFileDatabasesToAdd e path = [])
    ∧ (∀ content l, e.pathExists path = true → e.readFile path = .ok content →
        e.parseJson content = .ok l →
        discoverFileDatabasesToAdd e path
          = (l.enum.map
              (fun p => prepareDatabaseFromFile (e.genId p.1) e p.2)).filterMap (fun v => v)) := by
  refine ⟨rfl, ?_, ?_, ?_, ?_⟩
  · intro hp; simp [discoverFileDatabasesToAdd, hp]
  · intro err hp hr; simp [discoverFileDatabasesToAdd, hp, hr]
  · intro content err hp hr hj; simp [discoverFileDatabasesToAdd, hp, hr, hj]
  · intro content l hp hr hj; simp [discoverFileDatabasesToAdd, hp, hr, hj]

/-- Claim C4 witness: with a missing file path the file pipeline returns the
empty collection. -/
theorem C4_witness :
    ctxBase.pathExists "p" = false ∧ discoverFileDatabasesToAdd ctxBase "p" = [] :=
  ⟨rfl, (C4_containment ctxBase "p").2.1 rfl⟩

/-- Claim C5, corrected. The claim states idempotence on all fields except
id and name when neither was supplied. Re-normalizing actually PRESERVES the
id and the name (the second pass sees them populated), but it does not
preserve the certificate fields: the stamp embeds the raw input id, which is
absent on the first pass and the generated id on the second, so caCert and
clientCert change. Amended: when neither id nor name was supplied, a second
normalization agrees with the first on every field except caCert and
clientCert, id and name included. -/
theorem C5_idempotent (g1 g2 : String) (d : PartialDatabase)
    (h1 : d.id = none) (h2 : d.name = none) :
    (populateDefaultValues g2 (Database.toPartial (populateDefaultValues g1 d))).id
      = (populateDefaultValues g1 d).id
    ∧ (populateDefaultValues g2 (Database.toPartial (populateDefaultValues g1 d))).name
      = (populateDefaultValues g1 d).name
    ∧ (populateDefaultValues g2 (Database.toPartial (populateDefaultValues g1 d))).host
      = (populateDefaultValues g1 d).host
    ∧ (populateDefaultValues g2 (Database.toPartial (populateDefaultValues g1 d))).port
      = (populateDefaultValues g1 d).port
    ∧ (populateDefaultValues g2 (Database.toPartial (populateDefaultValues g1 d))).db
      = (populateDefaultValues g1 d).db
    ∧ (populateDefaultValues g2 (Database.toPartial (populateDefaultValues g1 d))).provider
      = (populateDefaultValues g1 d).provider
    ∧ (populateDefaultValues g2 (Database.toPartial (populateDefaultValues g1 d))).modules
      = (populateDefaultValues g1 d).modules
    ∧ (populateDefaultValues g2 (Database.toPartial (populateDefaultValues g1 d))).verifyServerCert
      = (populateDefaultValues g1 d).verifyServerCert
    ∧ (populateDefaultValues g2 (Database.toPartial (populateDefaultValues g1 d))).ssh
      = (populateDefaultValues g1 d).ssh
    ∧ (populateDefaultValues g2 (Database.toPartial (populateDefaultValues g1 d))).sshOptions
      = (populateDefaultValues g1 d).sshOptions
    ∧ (populateDefaultValues g2 (Database.toPartial (populateDefaultValues g1 d))).tls
      = (populateDefaultValues g1 d).tls
    ∧ (populateDefaultValues g2 (Database.toPartial (populateDefaultValues g1 d))).tlsServername
      = (populateDefaultValues g1 d).tlsServername
    ∧ (populateDefaultValues g2 (Database.toPartial (populateDefaultValues g1 d))).nameFromProvider
      = (populateDefaultValues g1 d).nameFromProvider
    ∧ (populateDefaultValues g2 (Database.toPartial (populateDefaultValues g1 d))).username
      = (populateDefaultValues g1 d).username
    ∧ (populateDefaultValues g2 (Database.toPartial (populateDefaultValues g1 d))).password
      = (populateDefaultValues g1 d).password
    ∧ (populateDefaultValues g2 (Database.toPartial (populateDefaultValues g1 d))).compressor
      = (populateDefaultValues g1 d).compressor
    ∧ (populateDefaultValues g2 (Database.toPartial (populateDefaultValues g1 d))).connectionType
      = (populateDefaultValues g1 d).connectionType
    ∧ (populateDefaultValues g2 (Database.toPartial (populateDefaultValues g1 d))).isPreSetup
      = (populateDefaultValues g1 d).isPreSetup
    ∧ (populateDefaultValues g2 (Database.toPartial (populateDefaultValues g1 d))).extra
      = (populateDefaultValues g1 d).extra := by
  refine ⟨?_, ?_, ?_, ?_, ?_, ?_, ?_, ?_, ?_, ?_, ?_, ?_, ?_, ?_, ?_, ?_, ?_, ?_, ?_⟩ <;>
    simp [populateDefaultValues, Database.toPartial]

/-- Claim C5 witness: on the concrete certificate-carrying input with no id
and no name the hypotheses hold and the id is preserved by the second
normalization. -/
theorem C5_witness :
    dCert.id = none ∧ dCert.name = none
    ∧ (populateDefaultValues "h2" (Database.toPartial (populateDefaultValues "g" dCert))).id
        = (populateDefaultValues "g" dCert).id :=
  ⟨rfl, rfl, (C5_idempotent "g" "h2" dCert rfl rfl).1⟩

/-- Claim C5 counterexample: on the certificate-carrying input with neither
id nor name supplied, the caCert field of the twice-normalized result
differs from the caCert field of the once-normalized result, refuting
idempotence on all fields except id and name. -/
theorem C5_counterexample :
    dCert.id = none ∧ dCert.name = none
    ∧ (populateDefaultValues "g" (Database.toPartial (populateDefaultValues "g" dCert))).caCert
        ≠ (populateDefaultValues "g" dCert).caCert := by
  decide

/-- Claim C6, corrected. The claim states port is the parsed integer
whenever the variable parses as an integer, with the default 6379 exactly on
absence or parse failure. The code computes parseInt(x, 10) with a falsy
fallback, so the parsed value 0 also falls back to 6379; the default is
taken exactly on absence, parse failure, or a parse result of 0, and a
parsed nonzero integer is kept. The tls part holds as stated: tls is true
iff the raw value equals the literal string "true". -/
theorem C6_port_tls (e : Ctx) (hk : String) :
    (∀ s n, envGet e ("RI_REDIS_PORT" ++ rawSuffix hk) = some s →
      jsParseInt s = some n → n ≠ 0 → (buildDatabaseToAdd e hk).port = some n)
    ∧ (envGet e ("RI_REDIS_PORT" ++ rawSuffix hk) = none →
      (buildDatabaseToAdd e hk).port = some 6379)
    ∧ (∀ s, envGet e ("RI_REDIS_PORT" ++ rawSuffix hk) = some s →
      jsParseInt s = none → (buildDatabaseToAdd e hk).port = some 6379)
    ∧ (∀ s, envGet e ("RI_REDIS_PORT" ++ rawSuffix hk) = some s →
      jsParseInt s = some 0 → (buildDatabaseToAdd e hk).port = some 6379)
    ∧ ((buildDatabaseToAdd e hk).tls = some true
        ↔ envGet e ("RI_REDIS_TLS" ++ rawSuffix hk) = some "true") := by
  refine ⟨?_, ?_, ?_, ?_, ?_⟩
  · intro s n hs hn hne; simp [jsParseIntOrDefault, hs, hn, hne]
  · intro h0; simp [jsParseIntOrDefault, h0]
  · intro s hs hn; simp [jsParseIntOrDefault, hs, hn]
  · intro s hs hn; simp [jsParseIntOrDefault, hs, hn]
  · simp

/-- Claim C6 witness: a parsable nonzero port value is kept and the tls
equivalence evaluates on a concrete snapshot. -/
theorem C6_witness :
    envGet ctxC6w ("RI_REDIS_PORT" ++ rawSuffix "RI_REDIS_HOST") = some "6380"
    ∧ jsParseInt "6380" = some 6380
    ∧ (buildDatabaseToAdd ctxC6w "RI_REDIS_HOST").port = some 6380
    ∧ (buildDatabaseToAdd ctxC6w "RI_REDIS_HOST").tls = some true :=
  ⟨by decide, by decide,
    (C6_port_tls ctxC6w "RI_REDIS_HOST").1 "6380" 6380 (by decide) (by decide) (by decide),
    ((C6_port_tls ctxC6w "RI_REDIS_HOST").2.2.2.2).mpr (by decide)⟩

/-- Claim C6 counterexample: the value "0" parses as the integer 0, yet the
pipeline sets port to 6379, not 0, because 0 is falsy under the fallback. -/
theorem C6_counterexample :
    envGet ctxC6 ("RI_REDIS_PORT" ++ rawSuffix "RI_REDIS_HOST") = some "0"
    ∧ jsParseInt "0" = some 0
    ∧ (buildDatabaseToAdd ctxC6 "RI_REDIS_HOST").port ≠ some 0 := by
  decide

/-- Claim C7, confirmed. getCertificateData returns the decoded inline
base64 value when the BASE64 variable holds a non-empty value, preferring it
over any file path set for the same id (the path branch is not reached);
otherwise the contents of the file named by the PATH variable when that read
succeeds; otherwise null. A decode failure or a read failure is caught and
yields null — the function always returns a plain value to its caller. -/
theorem C7_materializer (e : Ctx) (pfx i : String) :
    (∀ b v, envGet e (pfx ++ "_BASE64" ++ i) = some b → b ≠ "" →
      e.decodeBase64 b = .ok v → getCertificateData e pfx i = some v)
    ∧ (∀ b err, envGet e (pfx ++ "_BASE64" ++ i) = some b → b ≠ "" →
      e.decodeBase64 b = .error err → getCertificateData e pfx i = none)
    ∧ (∀ p v, (envGet e (pfx ++ "_BASE64" ++ i)).getD "" = "" →
      envGet e (pfx ++ "_PATH" ++ i) = some p → p ≠ "" →
      e.readFile p = .ok v → getCertificateData e pfx i = some v)
    ∧ (∀ p err, (envGet e (pfx ++ "_BASE64" ++ i)).getD "" = "" →
      envGet e (pfx ++ "_PATH" ++ i) = some p → p ≠ "" →
      e.readFile p = .error err → getCertificateData e pfx i = none)
    ∧ ((envGet e (pfx ++ "_BASE64" ++ i)).getD "" = "" →
      (envGet e (pfx ++ "_PATH" ++ i)).getD "" = "" →
      getCertificateData e pfx i = none) := by
  refine ⟨?_, ?_, ?_, ?_, ?_⟩
  · intro b v hb hbne hd; simp [getCertificateData, hb, hbne, hd]
  · intro b err hb hbne hd; simp [getCertificateData, hb, hbne, hd]
  · intro p v hb hp hpne hr; simp [getCertificateData, hb, hp, hpne, hr]
  · intro p err hb hp hpne hr; simp [getCertificateData, hb, hp, hpne, hr]
  · intro hb hp; simp [getCertificateData, hb, hp]

/-- Claim C7 witness: with both the inline base64 source and the file source
set for the same id, the decoded inline value is returned, not the file
contents. -/
theorem C7_witness :
    envGet ctxC7 ("CERT" ++ "_BASE64" ++ "X") = some "b64"
    ∧ envGet ctxC7 ("CERT" ++ "_PATH" ++ "X") = some "f"
    ∧ ctxC7.readFile "f" = .ok "file"
    ∧ getCertificateData ctxC7 "CERT" "X" = some "dec:b64" :=
  ⟨by decide, by decide, rfl,
    (C7_materializer ctxC7 "CERT" "X").1 "b64" "dec:b64" (by decide) (by decide) rfl⟩

/-- Claim C8, confirmed. When both the client certificate and the client key
resolve to present (truthy) values, the env pipeline attaches clientCert
with exactly those certificate and key values and forces verifyServerCert to
true (also surviving normalization); when either resolution is absent, no
clientCert is attached and verifyServerCert is left unset. -/
theorem C8_clientCert (e : Ctx) (gen hk : String) :
    (∀ c k, getCertificateData e "RI_REDIS_TLS_CERT" (rawSuffix hk) = some c → c ≠ "" →
      getCertificateData e "RI_REDIS_TLS_KEY" (rawSuffix hk) = some k → k ≠ "" →
      (buildDatabaseToAdd e hk).clientCert
          = some { certificate := some c, key := some k }
        ∧ (buildDatabaseToAdd e hk).verifyServerCert = some true
        ∧ (populateDefaultValues gen (buildDatabaseToAdd e hk)).verifyServerCert = some true)
    ∧ (strTruthy (getCertificateData e "RI_REDIS_TLS_CERT" (rawSuffix hk)) = false ∨
       strTruthy (getCertificateData e "RI_REDIS_TLS_KEY" (rawSuffix hk)) = false →
      (buildDatabaseToAdd e hk).clientCert = none
        ∧ (buildDatabaseToAdd e hk).verifyServerCert = none
        ∧ (populateDefaultValues gen (buildDatabaseToAdd e hk)).verifyServerCert = none) := by
  constructor
  · intro c k hc hcne hk2 hkne
    have ht : strTruthy (getCertificateData e "RI_REDIS_TLS_CERT" (rawSuffix hk)) = true := by
      simp [strTruthy, hc, hcne]
    have ht2 : strTruthy (getCertificateData e "RI_REDIS_TLS_KEY" (rawSuffix hk)) = true := by
      simp [strTruthy, hk2, hkne]
    refine ⟨?_, ?_, ?_⟩
    · rw [build_clientCert, hc, hk2]; simp [strTruthy, hcne, hkne]
    · rw [build_verifyServerCert]; simp [ht, ht2]
    · rw [populate_verifyServerCert, build_verifyServerCert]; simp [ht, ht2]
  · intro hor
    have hcond : (strTruthy (getCertificateData e "RI_REDIS_TLS_CERT" (rawSuffix hk))
        && strTruthy (getCertificateData e "RI_REDIS_TLS_KEY" (rawSuffix hk))) = false := by
      rcases hor with h0 | h0 <;> simp [h0]
    refine ⟨?_, ?_, ?_⟩
    · rw [build_clientCert, hcond]; rfl
    · rw [build_verifyServerCert, hcond]; rfl
    · rw [populate_verifyServerCert, build_verifyServerCert, hcond]; rfl

/-- Claim C8 witness: on a snapshot with inline client certificate and key,
both resolve, clientCert carries them, and verifyServerCert is forced. -/
theorem C8_witness :
    getCertificateData ctxC8 "RI_REDIS_TLS_CERT" (rawSuffix "RI_REDIS_HOST") = some "C"
    ∧ getCertificateData ctxC8 "RI_REDIS_TLS_KEY" (rawSuffix "RI_REDIS_HOST") = some "K"
    ∧ (buildDatabaseToAdd ctxC8 "RI_REDIS_HOST").clientCert
        = some { certificate := some "C", key := some "K" }
    ∧ (buildDatabaseToAdd ctxC8 "RI_REDIS_HOST").verifyServerCert = some true :=
  ⟨by decide, by decide,
    ((C8_clientCert ctxC8 "g" "RI_REDIS_HOST").1 "C" "K"
      (by decide) (by decide) (by decide) (by decide)).1,
    ((C8_clientCert ctxC8 "g" "RI_REDIS_HOST").1 "C" "K"
      (by decide) (by decide) (by decide) (by decide)).2.1⟩

/-- Claim C9, confirmed. For every partial input, including inputs that
carry their own connectionType or isPreSetup, the normalizer output has
connectionType NOT_CONNECTED and isPreSetup true: both fields are written
after the input spread, so the input values are always overwritten. -/
theorem C9_forced (gen : String) (d : PartialDatabase) :
    (populateDefaultValues gen d).connectionType = "NOT_CONNECTED"
    ∧ (populateDefaultValues gen d).isPreSetup = true :=
  ⟨rfl, rfl⟩

/-- Claim C10, confirmed. The normalizer passes through untouched every
input property outside its default table and forced fields: the host field
of the output equals the host field of the input (also when absent), and the
properties outside the known key set (carried by the extra field, preserved
by the object spread) appear unchanged in the output. -/
theorem C10_frame (gen : String) (d : PartialDatabase) :
    (populateDefaultValues gen d).host = d.host
    ∧ (populateDefaultValues gen d).extra = d.extra :=
  ⟨rfl, rfl⟩

end PreSetup
